import Mathlib

/-!
Shallow embedding of the xau-signal-tools backtest core, translated from
`src/utils.py`, `src/signal_detector.py`, `src/config.py` and
`src/backtester.py`.

Modelling conventions:
* timestamps are whole minutes since an arbitrary epoch (`Int`); the Python
  code uses `datetime` objects and `timedelta` arithmetic, all of which happen
  at minute granularity for this system (15-minute signal bars, 1-minute
  precision bars), so minute counts embed them exactly;
* prices and dollar amounts are rationals (`ℚ`) in place of Python floats —
  every claim under verification is about comparisons and branch structure,
  not rounding;
* the candle dict rows carry a `volume` key that the backtest core never
  reads; it is omitted from the record;
* the `confidence` / `is_strong_signal` fields of signals and trade records
  are computed by `calculate_supertrend` and
  `detect_wick_crossing_and_calculate_strong_sl_tp`, which `signal_detector.py`
  imports from `utils` but which are absent from `src/utils.py` (only test
  variants exist under `src/test_supertrend.py`).  They never influence
  whether a signal is produced, its direction, entry price or timestamp, nor
  any order-resolution decision, so those fields are omitted from the
  embedding; no claim mentions them.
-/

namespace XauSignal

/-- OHLCV bar as used by the backtest core (`dict` rows of the dataframes). -/
structure Candle where
  timestamp : Int
  «open» : ℚ
  high : ℚ
  low : ℚ
  close : ℚ
  deriving Repr, DecidableEq

/-- Trade direction strings `'LONG'` / `'SHORT'`. -/
inductive SignalType
  | LONG
  | SHORT
  deriving Repr, DecidableEq

/-- Pattern tag strings `'ENGULFING'` / `'INSIDE_BAR'`. -/
inductive Pattern
  | ENGULFING
  | INSIDE_BAR
  deriving Repr, DecidableEq

/-- Resolution kind strings `'TP'` / `'SL'` / `'TIMEOUT'`. -/
inductive HitType
  | TP
  | SL
  | TIMEOUT
  deriving Repr, DecidableEq

/-- Outcome strings `'WIN'` / `'LOSS'`. -/
inductive TradeResult
  | WIN
  | LOSS
  deriving Repr, DecidableEq

/-- `src/utils.py` `is_green_candle`: close strictly above open. -/
def is_green_candle (candle : Candle) : Bool :=
  candle.close > candle.«open»

/-- `src/utils.py` `is_red_candle`: close strictly below open. -/
def is_red_candle (candle : Candle) : Bool :=
  candle.close < candle.«open»

/-- `src/utils.py` `get_candle_body_range`: `abs(close - open)`. -/
def get_candle_body_range (candle : Candle) : ℚ :=
  |candle.close - candle.«open»|

/-- `src/utils.py` `calculate_tp_sl_prices`.  The Python function reads the
`TP_AMOUNT` / `SL_AMOUNT` module constants from `config.py`; they are passed
here as explicit arguments. -/
def calculate_tp_sl_prices (tp_amount sl_amount entry_price : ℚ)
    (signal_type : SignalType) : ℚ × ℚ :=
  match signal_type with
  | .LONG => (entry_price + tp_amount, entry_price - sl_amount)
  | .SHORT => (entry_price - tp_amount, entry_price + sl_amount)

/-- `src/utils.py` `check_tp_sl_hit` (lines 41-70): per-candle TP/SL test,
TP branch checked first, exit price is the exact TP/SL level. -/
def check_tp_sl_hit (candle : Candle) (tp_price sl_price : ℚ)
    (signal_type : SignalType) : Option (HitType × ℚ) :=
  match signal_type with
  | .LONG =>
    if candle.high ≥ tp_price then some (.TP, tp_price)
    else if candle.low ≤ sl_price then some (.SL, sl_price)
    else none
  | .SHORT =>
    if candle.low ≤ tp_price then some (.TP, tp_price)
    else if candle.high ≥ sl_price then some (.SL, sl_price)
    else none

/-- `src/utils.py` `calculate_pnl`. -/
def calculate_pnl (entry_price exit_price : ℚ) (signal_type : SignalType) : ℚ :=
  match signal_type with
  | .LONG => exit_price - entry_price
  | .SHORT => entry_price - exit_price

/-- `src/utils.py` `calculate_pnl_percentage`. -/
def calculate_pnl_percentage (entry_price exit_price : ℚ)
    (signal_type : SignalType) : ℚ :=
  match signal_type with
  | .LONG => (exit_price - entry_price) / entry_price * 100
  | .SHORT => (entry_price - exit_price) / entry_price * 100

/-- Minute-of-day of a timestamp (`timestamp.hour * 60 + timestamp.minute`
for the Python `datetime`). -/
def minuteOfDay (t : Int) : Int :=
  t % 1440

/-- `src/utils.py` `is_within_trading_hours` with the `HH:MM` strings already
parsed to minute-of-day counts (the parse-failure fallback `return True`
belongs to string handling, not to the window logic the claims touch). -/
def is_within_trading_hours (timestamp : Int) (start_minutes end_minutes : Int) :
    Bool :=
  let current_minutes := minuteOfDay timestamp
  if end_minutes < start_minutes then
    current_minutes ≥ start_minutes || current_minutes ≤ end_minutes
  else
    start_minutes ≤ current_minutes && current_minutes ≤ end_minutes

/-- Completed trade record as assembled by `src/backtester.py` (the
`completed_order` dicts). -/
structure CompletedTrade where
  entry_time : Int
  exit_time : Int
  signal_type : SignalType
  condition : Pattern
  entry_price : ℚ
  exit_price : ℚ
  tp_price : ℚ
  sl_price : ℚ
  hit_type : HitType
  pnl : ℚ
  pnl_percentage : ℚ
  result : TradeResult
  duration_minutes : Int
  deriving Repr, DecidableEq

/-- Statistics record returned by `src/utils.py` `calculate_win_rate`. -/
structure Stats where
  total_trades : Nat
  wins : Nat
  losses : Nat
  win_rate : ℚ
  total_pnl : ℚ
  total_pnl_percentage : ℚ
  avg_win : ℚ
  avg_loss : ℚ
  deriving Repr, DecidableEq

/-- `src/utils.py` `calculate_win_rate` (lines 202-249). -/
def calculate_win_rate (results : List CompletedTrade) : Stats :=
  if results = [] then
    { total_trades := 0, wins := 0, losses := 0, win_rate := 0,
      total_pnl := 0, total_pnl_percentage := 0, avg_win := 0, avg_loss := 0 }
  else
    let total_trades := results.length
    let wins := (results.filter fun r => r.result = .WIN).length
    let losses := total_trades - wins
    let win_rate : ℚ :=
      if total_trades > 0 then ((wins : ℚ) / (total_trades : ℚ)) * 100 else 0
    let total_pnl := (results.map fun r => r.pnl).sum
    let total_pnl_percentage := (results.map fun r => r.pnl_percentage).sum
    let win_pnls := (results.filter fun r => r.result = .WIN).map fun r => r.pnl
    let loss_pnls := (results.filter fun r => r.result = .LOSS).map fun r => r.pnl
    let avg_win : ℚ :=
      if win_pnls = [] then 0 else win_pnls.sum / (win_pnls.length : ℚ)
    let avg_loss : ℚ :=
      if loss_pnls = [] then 0 else loss_pnls.sum / (loss_pnls.length : ℚ)
    { total_trades := total_trades, wins := wins, losses := losses,
      win_rate := win_rate, total_pnl := total_pnl,
      total_pnl_percentage := total_pnl_percentage,
      avg_win := avg_win, avg_loss := avg_loss }

/-- Signal record built by `SignalDetector.detect_signal`
(`src/signal_detector.py` lines 42-54 and 73-85); see the file header for the
omitted confidence / strong-signal fields. -/
structure Signal where
  signal_type : SignalType
  condition : Pattern
  entry_price : ℚ
  timestamp : Int
  deriving Repr, DecidableEq

/-- `SignalDetector._check_prerequisite_conditions`
(`src/signal_detector.py` lines 96-142): the whole body is commented out in
the source and the method returns `True` unconditionally. -/
def check_prerequisite_conditions (_n1 _n2 _n3 : Candle) (_signal : Pattern) :
    Bool :=
  true

/-- `SignalDetector._check_engulfing_pattern`
(`src/signal_detector.py` lines 144-177). -/
def check_engulfing_pattern (n1 n2 : Candle) : Option SignalType :=
  if is_green_candle n1 && is_red_candle n2 && decide (n1.«open» > n2.close) then
    some .SHORT
  else if is_red_candle n1 && is_green_candle n2 && decide (n1.«open» < n2.close) then
    some .LONG
  else
    none

/-- Continuation of `SignalDetector._check_inside_bar_pattern` after the
combined N2+N3 range has been computed
(`src/signal_detector.py` lines 221-235): reject when the N1 body is at
least the combined range, then classify by the three candle colors. -/
def inside_bar_tail (n1 n2 n3 : Candle) (combined_range : ℚ) :
    Option SignalType :=
  if get_candle_body_range n1 ≥ combined_range then none
  else if is_green_candle n1 && is_red_candle n2 && is_red_candle n3 then
    some .SHORT
  else if is_red_candle n1 && is_green_candle n2 && is_green_candle n3 then
    some .LONG
  else none

/-- `SignalDetector._check_inside_bar_pattern`
(`src/signal_detector.py` lines 179-235): reject when the N2 body is at
least the N1 body, compute the combined range according to the shared color
of N2 and N3 (mixed colors reject), then continue with `inside_bar_tail`. -/
def check_inside_bar_pattern (n1 n2 n3 : Candle) : Option SignalType :=
  if get_candle_body_range n2 ≥ get_candle_body_range n1 then none
  else if is_red_candle n2 && is_red_candle n3 then
    inside_bar_tail n1 n2 n3 |n2.«open» - n3.close|
  else if is_green_candle n2 && is_green_candle n3 then
    inside_bar_tail n1 n2 n3 |n3.close - n2.«open»|
  else none

/-- Second half of `SignalDetector.detect_signal`
(`src/signal_detector.py` lines 63-94): the inside-bar branch, reached when
the engulfing branch did not return. -/
def detect_signal_inside (n1 n2 n3 : Candle) : Option Signal :=
  match check_inside_bar_pattern n1 n2 n3 with
  | some inside_bar_signal =>
    if check_prerequisite_conditions n1 n2 n3 .INSIDE_BAR then
      some { signal_type := inside_bar_signal, condition := .INSIDE_BAR,
             entry_price := n3.close, timestamp := n3.timestamp + 15 }
    else none
  | none => none

/-- `SignalDetector.detect_signal` (`src/signal_detector.py` lines 13-94):
engulfing pattern on (n2, n3) checked first, inside-bar on (n1, n2, n3)
second; entry price is `n3['close']`; the signal timestamp is
`n3['timestamp'] + timedelta(minutes=15)` in both branches (hard-coded,
lines 46 and 77). -/
def detect_signal (n1 n2 n3 : Candle) : Option Signal :=
  match check_engulfing_pattern n2 n3 with
  | some engulfing_signal =>
    if check_prerequisite_conditions n1 n2 n3 .ENGULFING then
      some { signal_type := engulfing_signal, condition := .ENGULFING,
             entry_price := n3.close, timestamp := n3.timestamp + 15 }
    else detect_signal_inside n1 n2 n3
  | none => detect_signal_inside n1 n2 n3

/-- Python `str.lower()`: lower-case every character (the timeframe strings
this system passes are ASCII, where this agrees with `Char.toLower`
character by character). -/
def str_lower (s : String) : String :=
  String.mk (s.data.map Char.toLower)

/-- `Backtester._get_timeframe_minutes` (`src/backtester.py` lines 266-291):
dictionary lookup on `timeframe_str.lower()` with fallback 15. -/
def get_timeframe_minutes (timeframe_str : String) : Int :=
  if str_lower timeframe_str = "1m" then 1
  else if str_lower timeframe_str = "5m" then 5
  else if str_lower timeframe_str = "15m" then 15
  else if str_lower timeframe_str = "30m" then 30
  else if str_lower timeframe_str = "1h" then 60
  else if str_lower timeframe_str = "4h" then 240
  else if str_lower timeframe_str = "1d" then 1440
  else 15

/-- The configuration flags of `src/config.py` read by `src/backtester.py`,
with the trading-window `HH:MM` strings already parsed to minute-of-day
counts. -/
structure Config where
  TP_AMOUNT : ℚ
  SL_AMOUNT : ℚ
  ENABLE_TIMEOUT : Bool
  TIMEOUT_HOURS : Int
  ENABLE_TIME_WINDOW : Bool
  TRADE_START_MINUTES : Int
  TRADE_END_MINUTES : Int
  ENABLE_SINGLE_ORDER_MODE : Bool
  deriving Repr, DecidableEq

/-- Active order as created by `Backtester._place_order`
(`src/backtester.py` lines 386-416); the `signal_details` and `confidence`
entries are logging / supertrend metadata never read by the resolution logic
(see the file header). -/
structure Order where
  entry_time : Int
  signal_type : SignalType
  condition : Pattern
  entry_price : ℚ
  tp_price : ℚ
  sl_price : ℚ
  deriving Repr, DecidableEq

/-- `Backtester._place_order` (`src/backtester.py` lines 386-416). -/
def place_order (cfg : Config) (signal : Signal) (current_time : Int) : Order :=
  let prices := calculate_tp_sl_prices cfg.TP_AMOUNT cfg.SL_AMOUNT
    signal.entry_price signal.signal_type
  { entry_time := current_time, signal_type := signal.signal_type,
    condition := signal.condition, entry_price := signal.entry_price,
    tp_price := prices.1, sl_price := prices.2 }

/-- Engine state: the `self.active_orders` and `self.completed_orders` lists
of `Backtester`. -/
structure BState where
  active : List Order
  completed : List CompletedTrade
  deriving Repr, DecidableEq

/-- The inner 1-minute scan of
`Backtester._check_active_orders_with_1m_precision`
(`src/backtester.py` lines 211-258): walk the window chronologically, skip bars
at or before the order's entry, stop at the first bar where
`check_tp_sl_hit` fires, returning that bar and the hit. -/
def scan_1m (order : Order) : List Candle → Option (Candle × HitType × ℚ)
  | [] => none
  | candle_1m :: rest =>
    if candle_1m.timestamp ≤ order.entry_time then scan_1m order rest
    else
      match check_tp_sl_hit candle_1m order.tp_price order.sl_price
          order.signal_type with
      | some (hit_type, exit_price) => some (candle_1m, hit_type, exit_price)
      | none => scan_1m order rest

/-- The list of precision-series bars on which the loop of
`src/backtester.py` lines 212-222 actually invokes `check_tp_sl_hit` for a
given order: bars at or before the order's entry are skipped (line 214), and
the scan stops at (and includes) the first bar that reports a hit
(line 258). -/
def consulted_1m_bars (order : Order) : List Candle → List Candle
  | [] => []
  | candle_1m :: rest =>
    if candle_1m.timestamp ≤ order.entry_time then consulted_1m_bars order rest
    else
      match check_tp_sl_hit candle_1m order.tp_price order.sl_price
          order.signal_type with
      | some _ => [candle_1m]
      | none => candle_1m :: consulted_1m_bars order rest

/-- Resolution of one active order in one step of
`Backtester._check_active_orders_with_1m_precision`
(`src/backtester.py` lines 156-258): the in-loop timeout (guarded by
`TIMEOUT_HOURS > 0`) is checked first, then orders placed at or after the
current bar are skipped, then the 1-minute window
`(current_time - timeframe_minutes, current_time]` is scanned.  Returns the
completed-trade record if the order resolves at this step. -/
def check_order_1m (cfg : Config) (timeframe_minutes : Int)
    (current_candle : Candle) (df_1m : List Candle) (order : Order) :
    Option CompletedTrade :=
  let current_time := current_candle.timestamp
  if cfg.TIMEOUT_HOURS > 0 ∧
      ((current_time - order.entry_time : Int) : ℚ) / 60 ≥
        (cfg.TIMEOUT_HOURS : ℚ) then
    let exit_price := current_candle.close
    let result : TradeResult :=
      match order.signal_type with
      | .LONG => if exit_price ≥ order.tp_price then .WIN else .LOSS
      | .SHORT => if exit_price ≤ order.tp_price then .WIN else .LOSS
    some { entry_time := order.entry_time, exit_time := current_time,
           signal_type := order.signal_type, condition := order.condition,
           entry_price := order.entry_price, exit_price := exit_price,
           tp_price := order.tp_price, sl_price := order.sl_price,
           hit_type := .TIMEOUT,
           pnl := calculate_pnl order.entry_price exit_price order.signal_type,
           pnl_percentage :=
             calculate_pnl_percentage order.entry_price exit_price
               order.signal_type,
           result := result,
           duration_minutes := current_time - order.entry_time }
  else if order.entry_time ≥ current_time then none
  else
    let start_1m := current_time - timeframe_minutes
    let period_1m_candles := df_1m.filter fun c =>
      decide (c.timestamp > start_1m) && decide (c.timestamp ≤ current_time)
    match scan_1m order period_1m_candles with
    | some (candle_1m, hit_type, exit_price) =>
      some { entry_time := order.entry_time,
             exit_time := candle_1m.timestamp,
             signal_type := order.signal_type, condition := order.condition,
             entry_price := order.entry_price, exit_price := exit_price,
             tp_price := order.tp_price, sl_price := order.sl_price,
             hit_type := hit_type,
             pnl := calculate_pnl order.entry_price exit_price order.signal_type,
             pnl_percentage :=
               calculate_pnl_percentage order.entry_price exit_price
                 order.signal_type,
             result := if hit_type = .TP then .WIN else .LOSS,
             duration_minutes := candle_1m.timestamp - order.entry_time }
    | none => none

/-- `Backtester._check_active_orders_with_1m_precision` as a whole-state
step: resolved orders are appended to the completed list in iteration order
and removed from the active list (`src/backtester.py` lines 139-264). -/
def check_active_orders_with_1m_precision (cfg : Config)
    (timeframe_minutes : Int) (current_candle : Candle)
    (df_1m : List Candle) (st : BState) : BState :=
  { active := st.active.filter fun o =>
      (check_order_1m cfg timeframe_minutes current_candle df_1m o).isNone,
    completed := st.completed ++ st.active.filterMap fun o =>
      check_order_1m cfg timeframe_minutes current_candle df_1m o }

/-- Step 1 of the main loop (`src/backtester.py` lines 108-120): admission of
a detected signal — single-order mode checked first, then the trading-hours
window, then the order is appended to the active list. -/
def admit_signal (cfg : Config) (st : BState) (signal : Option Signal)
    (current_time : Int) : BState :=
  match signal with
  | none => st
  | some sig =>
    if cfg.ENABLE_SINGLE_ORDER_MODE ∧ st.active.length > 0 then st
    else if cfg.ENABLE_TIME_WINDOW then
      if is_within_trading_hours current_time cfg.TRADE_START_MINUTES
          cfg.TRADE_END_MINUTES then
        { st with active := st.active ++ [place_order cfg sig current_time] }
      else st
    else { st with active := st.active ++ [place_order cfg sig current_time] }

/-- One iteration of the `while current_index < len(df)` loop
(`src/backtester.py` lines 93-125): detect on the three lookback bars, admit,
then check active orders against the 1-minute data. -/
def backtest_step (cfg : Config) (timeframe_minutes : Int)
    (df_1m : List Candle) (n1 n2 n3 current : Candle) (st : BState) : BState :=
  let st1 := admit_signal cfg st (detect_signal n1 n2 n3) current.timestamp
  check_active_orders_with_1m_precision cfg timeframe_minutes current df_1m st1

/-- The main loop over the signal series: `run_windows a b c rest st`
processes the bars of `rest` in order as the `current` bar, with `a`, `b`,
`c` the three bars immediately before the head of `rest`
(`df.iloc[i-3..i-1]` for `current_index = i`). -/
def run_windows (cfg : Config) (timeframe_minutes : Int)
    (df_1m : List Candle) :
    Candle → Candle → Candle → List Candle → BState → BState
  | _, _, _, [], st => st
  | a, b, c, d :: rest, st =>
    run_windows cfg timeframe_minutes df_1m b c d rest
      (backtest_step cfg timeframe_minutes df_1m a b c d st)

/-- `Backtester._close_remaining_orders` (`src/backtester.py` lines 418-459):
force-close every remaining active order at the last bar's close and
timestamp with hit type TIMEOUT. -/
def close_remaining_orders (_cfg : Config) (last_candle : Candle)
    (st : BState) : BState :=
  let closed := st.active.map fun order =>
    let exit_price := last_candle.close
    let exit_time := last_candle.timestamp
    let result : TradeResult :=
      match order.signal_type with
      | .LONG => if exit_price ≥ order.tp_price then .WIN else .LOSS
      | .SHORT => if exit_price ≤ order.tp_price then .WIN else .LOSS
    { entry_time := order.entry_time, exit_time := exit_time,
      signal_type := order.signal_type, condition := order.condition,
      entry_price := order.entry_price, exit_price := exit_price,
      tp_price := order.tp_price, sl_price := order.sl_price,
      hit_type := HitType.TIMEOUT,
      pnl := calculate_pnl order.entry_price exit_price order.signal_type,
      pnl_percentage :=
        calculate_pnl_percentage order.entry_price exit_price order.signal_type,
      result := result,
      duration_minutes := exit_time - order.entry_time }
  { active := [], completed := st.completed ++ closed }

/-- Placeholder candle for `List.getLastD`; never selected, because the
force close is only reached on a nonempty signal series. -/
def dummyCandle : Candle :=
  { timestamp := 0, «open» := 0, high := 0, low := 0, close := 0 }

/-- `Backtester.run_backtest` (`src/backtester.py` lines 42-137) on the
already-sorted dataframes (the source sorts both by timestamp ascending at
lines 87-88 before the loop; callers below pass sorted series).  Empty data
returns `[]` (lines 62-64 and 76-78); the loop starts at `current_index = 3`,
so it runs only when the signal series has at least four bars; the final
force close runs only when `ENABLE_TIMEOUT` is set (lines 128-129). -/
def run_backtest (cfg : Config) (timeframe : String)
    (df df_1m : List Candle) : List CompletedTrade :=
  if df = [] then []
  else if df_1m = [] then []
  else
    let timeframe_minutes := get_timeframe_minutes timeframe
    let st0 : BState := { active := [], completed := [] }
    let stEnd :=
      match df with
      | c0 :: c1 :: c2 :: rest =>
        run_windows cfg timeframe_minutes df_1m c0 c1 c2 rest st0
      | _ => st0
    let stFinal :=
      if cfg.ENABLE_TIMEOUT then
        close_remaining_orders cfg (df.getLastD dummyCandle) stEnd
      else stEnd
    stFinal.completed

/-- Fault-injected variant of the main loop for the exception semantics of
the `try` block (`src/backtester.py` lines 53-137): `fault k = true` means
the body of iteration `k` raises.  The error value carries the engine state
at the moment of the exception (the `self.completed_orders` the handler could
have reported). -/
def run_windows_exc (cfg : Config) (timeframe_minutes : Int)
    (df_1m : List Candle) (fault : Nat → Bool) :
    Nat → Candle → Candle → Candle → List Candle → BState →
      Except BState BState
  | _, _, _, _, [], st => .ok st
  | k, a, b, c, d :: rest, st =>
    if fault k then .error st
    else
      run_windows_exc cfg timeframe_minutes df_1m fault (k + 1) b c d rest
        (backtest_step cfg timeframe_minutes df_1m a b c d st)

/-- The fault-injected main loop starting from the empty state, as
`run_backtest` enters it. -/
def backtest_loop_exc (cfg : Config) (timeframe_minutes : Int)
    (df_1m : List Candle) (fault : Nat → Bool) (df : List Candle) :
    Except BState BState :=
  match df with
  | c0 :: c1 :: c2 :: rest =>
    run_windows_exc cfg timeframe_minutes df_1m fault 0 c0 c1 c2 rest
      { active := [], completed := [] }
  | _ => .ok { active := [], completed := [] }

/-- The completed trades accumulated before the injected exception fires
(empty when no exception fires). -/
def completed_before_fault (cfg : Config) (timeframe_minutes : Int)
    (df_1m : List Candle) (fault : Nat → Bool) (df : List Candle) :
    List CompletedTrade :=
  match backtest_loop_exc cfg timeframe_minutes df_1m fault df with
  | .error st => st.completed
  | .ok _ => []

/-- `Backtester.run_backtest` with the fault model: the
`except Exception ... return []` handler at `src/backtester.py`
lines 135-137 maps any exception raised inside the loop to the empty result
list. -/
def run_backtest_exc (cfg : Config) (timeframe : String) (fault : Nat → Bool)
    (df df_1m : List Candle) : List CompletedTrade :=
  if df = [] then []
  else if df_1m = [] then []
  else
    let timeframe_minutes := get_timeframe_minutes timeframe
    match backtest_loop_exc cfg timeframe_minutes df_1m fault df with
    | .error _ => []
    | .ok stEnd =>
      let stFinal :=
        if cfg.ENABLE_TIMEOUT then
          close_remaining_orders cfg (df.getLastD dummyCandle) stEnd
        else stEnd
      stFinal.completed

/-- The sequence of engine states visited by the main loop, for stating
whole-run invariants: the initial state, then after each admission and each
order check, then (when `ENABLE_TIMEOUT` is set) after the final force
close. -/
def run_windows_trace (cfg : Config) (timeframe_minutes : Int)
    (df_1m : List Candle) :
    Candle → Candle → Candle → List Candle → BState → List BState
  | _, _, _, [], _ => []
  | a, b, c, d :: rest, st =>
    let st1 := admit_signal cfg st (detect_signal a b c) d.timestamp
    let st2 :=
      check_active_orders_with_1m_precision cfg timeframe_minutes d df_1m st1
    st1 :: st2 :: run_windows_trace cfg timeframe_minutes df_1m b c d rest st2

/-- All engine states of a `run_backtest` run, in visit order. -/
def backtest_states (cfg : Config) (timeframe : String)
    (df df_1m : List Candle) : List BState :=
  if df = [] then []
  else if df_1m = [] then []
  else
    let timeframe_minutes := get_timeframe_minutes timeframe
    let st0 : BState := { active := [], completed := [] }
    match df with
    | c0 :: c1 :: c2 :: rest =>
      let states :=
        st0 :: run_windows_trace cfg timeframe_minutes df_1m c0 c1 c2 rest st0
      let stEnd := run_windows cfg timeframe_minutes df_1m c0 c1 c2 rest st0
      if cfg.ENABLE_TIMEOUT then
        states ++ [close_remaining_orders cfg (rest.getLastD c2) stEnd]
      else states
    | _ => [st0]

/-! ## Concrete inputs used by witnesses and counterexamples -/

def orderW1 : Order :=
  { entry_time := 10, signal_type := .LONG, condition := .ENGULFING,
    entry_price := 100, tp_price := 106, sl_price := 97 }

def barW1 : Candle :=
  { timestamp := 20, «open» := 100, high := 101, low := 99, close := 100 }

def candleW4 : Candle :=
  { timestamp := 0, «open» := 100, high := 107, low := 96, close := 100 }

def c6a : Candle :=
  { timestamp := 0, «open» := 100, high := 101, low := 99, close := 100 }

def c6b : Candle :=
  { timestamp := 15, «open» := 100, high := 106, low := 99, close := 105 }

def c6c : Candle :=
  { timestamp := 30, «open» := 104, high := 105, low := 98, close := 99 }

def d7a : Candle :=
  { timestamp := 0, «open» := 100, high := 104, low := 99, close := 103 }

def d7b : Candle :=
  { timestamp := 15, «open» := 103, high := 104, low := 101, close := 102 }

def d7c : Candle :=
  { timestamp := 30, «open» := 102, high := 103, low := 97, close := 98 }

def cfgW8 : Config :=
  { TP_AMOUNT := 6, SL_AMOUNT := 3, ENABLE_TIMEOUT := true,
    TIMEOUT_HOURS := 24, ENABLE_TIME_WINDOW := false,
    TRADE_START_MINUTES := 960, TRADE_END_MINUTES := 1380,
    ENABLE_SINGLE_ORDER_MODE := false }

def curW8 : Candle :=
  { timestamp := 1500, «open» := 100, high := 101, low := 99, close := 100 }

def orderW8 : Order :=
  { entry_time := 0, signal_type := .LONG, condition := .ENGULFING,
    entry_price := 95, tp_price := 101, sl_price := 92 }

/-- Default configuration of `src/config.py`: TP 6.0 USD, SL 3.0 USD,
timeout enabled at 24 hours, no trading-hours window, multiple orders. -/
def cfgDefault : Config :=
  { TP_AMOUNT := 6, SL_AMOUNT := 3, ENABLE_TIMEOUT := true,
    TIMEOUT_HOURS := 24, ENABLE_TIME_WINDOW := false,
    TRADE_START_MINUTES := 960, TRADE_END_MINUTES := 1380,
    ENABLE_SINGLE_ORDER_MODE := false }

def e2a : Candle :=
  { timestamp := 0, «open» := 100, high := 101, low := 99, close := 100 }

def e2b : Candle :=
  { timestamp := 15, «open» := 100, high := 106, low := 99, close := 105 }

def e2c : Candle :=
  { timestamp := 30, «open» := 104, high := 105, low := 98, close := 99 }

def e2d : Candle :=
  { timestamp := 45, «open» := 99, high := 100, low := 98, close := 99 }

def e2e : Candle :=
  { timestamp := 60, «open» := 99, high := 100, low := 98, close := 99 }

def e2f : Candle :=
  { timestamp := 75, «open» := 99, high := 100, low := 98, close := 99 }

/-- 1-minute bar that hits the SHORT take profit of `ordC2`. -/
def m2 : Candle :=
  { timestamp := 50, «open» := 95, high := 96, low := 92, close := 93 }

/-- Signal series with an engulfing SHORT at the fourth bar and no further
signals. -/
def dfC2 : List Candle :=
  [e2a, e2b, e2c, e2d, e2e, e2f]

/-- The order the engulfing SHORT at `e2d` opens (entry 99, TP 93, SL 102). -/
def ordC2 : Order :=
  { entry_time := 45, signal_type := .SHORT, condition := .ENGULFING,
    entry_price := 99, tp_price := 93, sl_price := 102 }

/-- The trade `ordC2` closes into when `m2` hits its TP. -/
def tradeC2 : CompletedTrade :=
  { entry_time := 45, exit_time := 50, signal_type := .SHORT,
    condition := .ENGULFING, entry_price := 99, exit_price := 93,
    tp_price := 93, sl_price := 102, hit_type := .TP, pnl := 6,
    pnl_percentage := 200 / 33, result := .WIN, duration_minutes := 5 }

/-- Fault model: the third loop iteration raises. -/
def faultC2 : Nat → Bool :=
  fun k => k == 2

/-- Four-bar signal series whose last bar carries the engulfing SHORT. -/
def dfC3 : List Candle :=
  [e2a, e2b, e2c, e2d]

/-- The force close of `ordC2` at the last bar `e2d` of `dfC3`: exit time
equals entry time. -/
def tradeC3 : CompletedTrade :=
  { entry_time := 45, exit_time := 45, signal_type := .SHORT,
    condition := .ENGULFING, entry_price := 99, exit_price := 99,
    tp_price := 93, sl_price := 102, hit_type := .TIMEOUT, pnl := 0,
    pnl_percentage := 0, result := .LOSS, duration_minutes := 0 }

/-- `cfgDefault` with single-order mode enabled. -/
def cfgSingle : Config :=
  { TP_AMOUNT := 6, SL_AMOUNT := 3, ENABLE_TIMEOUT := true,
    TIMEOUT_HOURS := 24, ENABLE_TIME_WINDOW := false,
    TRADE_START_MINUTES := 960, TRADE_END_MINUTES := 1380,
    ENABLE_SINGLE_ORDER_MODE := true }

/-- A completed winning trade used by the aggregator witness. -/
def tradeW10 : CompletedTrade :=
  { entry_time := 0, exit_time := 10, signal_type := .LONG,
    condition := .ENGULFING, entry_price := 100, exit_price := 106,
    tp_price := 106, sl_price := 97, hit_type := .TP, pnl := 6,
    pnl_percentage := 6, result := .WIN, duration_minutes := 10 }

/-- The exit/entry-time shape every completed trade is claimed to satisfy:
exit no earlier than entry, and strictly later for TP/SL resolutions. -/
def GoodTrade (t : CompletedTrade) : Prop :=
  t.entry_time ≤ t.exit_time ∧
    ((t.hit_type = HitType.TP ∨ t.hit_type = HitType.SL) →
      t.entry_time < t.exit_time)

/-! ## Helper lemmas -/


/-- Every bar the 1-minute scan loop passes to `check_tp_sl_hit` lies
strictly after the order's entry time (the guard at
`src/backtester.py` line 214). -/
theorem consulted_entry_lt (order : Order) :
    ∀ l : List Candle, ∀ c ∈ consulted_1m_bars order l,
      order.entry_time < c.timestamp := by
  intro l
  induction l with
  | nil =>
    intro c hc
    simp [consulted_1m_bars] at hc
  | cons b rest ih =>
    intro c hc
    unfold consulted_1m_bars at hc
    by_cases hts : b.timestamp ≤ order.entry_time
    · rw [if_pos hts] at hc
      exact ih c hc
    · rw [if_neg hts] at hc
      cases hhit : check_tp_sl_hit b order.tp_price order.sl_price
          order.signal_type with
      | some v =>
        rw [hhit] at hc
        simp only [List.mem_singleton] at hc
        subst hc
        omega
      | none =>
        rw [hhit] at hc
        rcases List.mem_cons.mp hc with h | h
        · subst h; omega
        · exact ih c h


/-- The bar on which `scan_1m` reports a hit is strictly after the order's
entry time. -/
theorem scan_1m_entry_lt (order : Order) :
    ∀ (l : List Candle) (c : Candle) (ht : HitType) (p : ℚ),
      scan_1m order l = some (c, ht, p) → order.entry_time < c.timestamp := by
  intro l
  induction l with
  | nil =>
    intro c ht p h
    simp [scan_1m] at h
  | cons b rest ih =>
    intro c ht p h
    unfold scan_1m at h
    by_cases hts : b.timestamp ≤ order.entry_time
    · rw [if_pos hts] at h
      exact ih c ht p h
    · rw [if_neg hts] at h
      cases hhit : check_tp_sl_hit b order.tp_price order.sl_price
          order.signal_type with
      | some v =>
        rw [hhit] at h
        obtain ⟨hv, _⟩ := v
        simp only [Option.some.injEq, Prod.mk.injEq] at h
        obtain ⟨hb, -⟩ := h
        subst hb
        omega
      | none =>
        rw [hhit] at h
        exact ih c ht p h


/-- The bar on which `scan_1m` reports a hit is one of the consulted bars. -/
theorem scan_1m_mem_consulted (order : Order) :
    ∀ (l : List Candle) (c : Candle) (ht : HitType) (p : ℚ),
      scan_1m order l = some (c, ht, p) → c ∈ consulted_1m_bars order l := by
  intro l
  induction l with
  | nil =>
    intro c ht p h
    simp [scan_1m] at h
  | cons b rest ih =>
    intro c ht p h
    unfold scan_1m at h
    unfold consulted_1m_bars
    by_cases hts : b.timestamp ≤ order.entry_time
    · rw [if_pos hts] at h
      rw [if_pos hts]
      exact ih c ht p h
    · rw [if_neg hts] at h
      rw [if_neg hts]
      cases hhit : check_tp_sl_hit b order.tp_price order.sl_price
          order.signal_type with
      | some v =>
        rw [hhit] at h
        obtain ⟨hv, _⟩ := v
        simp only [Option.some.injEq, Prod.mk.injEq] at h
        obtain ⟨hb, -⟩ := h
        subst hb
        simp
      | none =>
        rw [hhit] at h
        exact List.mem_cons_of_mem b (ih c ht p h)

/-! ## Claim theorems -/


/-- C1. No-lookahead: every precision-series (1-minute) bar consulted to
resolve an order's TP/SL has timestamp strictly greater than that order's
own entry time; a bar at or before the entry time is never used, and the
bound is the order's own entry time regardless of which other orders share
the iteration step. -/
theorem no_lookahead_consulted_bars (order : Order) (df_1m : List Candle)
    (c : Candle) (hc : c ∈ consulted_1m_bars order df_1m) :
    order.entry_time < c.timestamp :=
  consulted_entry_lt order df_1m c hc


theorem no_lookahead_consulted_bars_witness :
    barW1 ∈ consulted_1m_bars orderW1 [barW1] ∧
      orderW1.entry_time < barW1.timestamp :=
  ⟨by decide, no_lookahead_consulted_bars orderW1 [barW1] barW1 (by decide)⟩


/-- C4. Same-bar tie-break and exact exit prices: `check_tp_sl_hit` returns
`(TP, tp_price)` whenever the TP condition holds on the candle (even when
the SL condition also holds), `(SL, sl_price)` when only the SL condition
holds, and `(None, None)` when neither holds; the exit price is exactly the
TP or SL level. -/
theorem check_tp_sl_hit_tp_first (candle : Candle) (tp_price sl_price : ℚ) :
    ((tp_price ≤ candle.high →
        check_tp_sl_hit candle tp_price sl_price .LONG =
          some (.TP, tp_price)) ∧
     (candle.high < tp_price → candle.low ≤ sl_price →
        check_tp_sl_hit candle tp_price sl_price .LONG =
          some (.SL, sl_price)) ∧
     (candle.high < tp_price → sl_price < candle.low →
        check_tp_sl_hit candle tp_price sl_price .LONG = none)) ∧
    ((candle.low ≤ tp_price →
        check_tp_sl_hit candle tp_price sl_price .SHORT =
          some (.TP, tp_price)) ∧
     (tp_price < candle.low → sl_price ≤ candle.high →
        check_tp_sl_hit candle tp_price sl_price .SHORT =
          some (.SL, sl_price)) ∧
     (tp_price < candle.low → candle.high < sl_price →
        check_tp_sl_hit candle tp_price sl_price .SHORT = none)) := by
  refine ⟨⟨fun h => ?_, fun h1 h2 => ?_, fun h1 h2 => ?_⟩,
          fun h => ?_, fun h1 h2 => ?_, fun h1 h2 => ?_⟩
  · simp [check_tp_sl_hit, h]
  · simp [check_tp_sl_hit, not_le.mpr h1, h2]
  · simp [check_tp_sl_hit, not_le.mpr h1, not_le.mpr h2]
  · simp [check_tp_sl_hit, h]
  · simp [check_tp_sl_hit, not_le.mpr h1, h2]
  · simp [check_tp_sl_hit, not_le.mpr h1, not_le.mpr h2]


theorem check_tp_sl_hit_tp_first_witness :
    (106 : ℚ) ≤ candleW4.high ∧ candleW4.low ≤ (97 : ℚ) ∧
      check_tp_sl_hit candleW4 106 97 .LONG = some (.TP, 106) :=
  ⟨by decide, by decide,
    (check_tp_sl_hit_tp_first candleW4 106 97).1.1 (by decide)⟩


/-- C8. Timeout resolution: an active order whose age at the current step
reaches the configured timeout (with the in-loop timeout enabled,
`TIMEOUT_HOURS > 0`) is closed with hit type TIMEOUT, exit price equal to
the current signal-timeframe candle's close, exit time equal to the current
bar's timestamp, and result WIN exactly when the exit price is on the TP
side of the order. -/
theorem timeout_resolution_spec (cfg : Config) (timeframe_minutes : Int)
    (current_candle : Candle) (df_1m : List Candle) (order : Order)
    (hH : 0 < cfg.TIMEOUT_HOURS)
    (hage : (cfg.TIMEOUT_HOURS : ℚ) ≤
      ((current_candle.timestamp - order.entry_time : Int) : ℚ) / 60) :
    ∃ t, check_order_1m cfg timeframe_minutes current_candle df_1m order =
        some t ∧
      t.hit_type = .TIMEOUT ∧
      t.exit_price = current_candle.close ∧
      t.exit_time = current_candle.timestamp ∧
      (t.result = .WIN ↔
        (match order.signal_type with
         | .LONG => order.tp_price ≤ current_candle.close
         | .SHORT => current_candle.close ≤ order.tp_price)) := by
  simp only [check_order_1m]
  rw [if_pos ⟨hH, hage⟩]
  refine ⟨_, rfl, rfl, rfl, rfl, ?_⟩
  cases hst : order.signal_type <;> simp only [hst] <;>
    split_ifs with hw <;> simp_all


/-- Characterization of the engulfing SHORT branch
(`src/signal_detector.py` lines 167-170). -/
theorem check_engulfing_short_iff (n1 n2 : Candle) :
    check_engulfing_pattern n1 n2 = some .SHORT ↔
      (is_green_candle n1 = true ∧ is_red_candle n2 = true ∧
        n1.«open» > n2.close) := by
  unfold check_engulfing_pattern
  constructor
  · intro h
    split_ifs at h with h1 h2
    · simp only [Bool.and_eq_true, decide_eq_true_eq] at h1
      exact ⟨h1.1.1, h1.1.2, h1.2⟩
    · exact absurd h (by simp)
  · rintro ⟨hg, hr, hgt⟩
    rw [if_pos (by simp [hg, hr, hgt])]


/-- Characterization of the engulfing LONG branch
(`src/signal_detector.py` lines 172-175). -/
theorem check_engulfing_long_iff (n1 n2 : Candle) :
    check_engulfing_pattern n1 n2 = some .LONG ↔
      (is_red_candle n1 = true ∧ is_green_candle n2 = true ∧
        n1.«open» < n2.close) := by
  unfold check_engulfing_pattern
  constructor
  · intro h
    split_ifs at h with h1 h2
    · exact absurd h (by simp)
    · simp only [Bool.and_eq_true, decide_eq_true_eq] at h2
      exact ⟨h2.1.1, h2.1.2, h2.2⟩
  · rintro ⟨hr, hg, hlt⟩
    have h1 : ¬(is_green_candle n1 && is_red_candle n2 &&
        decide (n1.«open» > n2.close)) = true := by
      simp only [Bool.and_eq_true, decide_eq_true_eq, is_green_candle,
        is_red_candle, not_and] at hr hg ⊢
      intro hc hgt
      linarith [hc.1]
    rw [if_neg h1, if_pos (by simp [hr, hg, hlt])]


/-- Shape of any signal produced by the inside-bar branch of
`detect_signal`. -/
theorem detect_signal_inside_shape (n1 n2 n3 : Candle) (sig : Signal)
    (h : detect_signal_inside n1 n2 n3 = some sig) :
    sig.condition = .INSIDE_BAR ∧ sig.entry_price = n3.close ∧
      sig.timestamp = n3.timestamp + 15 ∧
      check_inside_bar_pattern n1 n2 n3 = some sig.signal_type := by
  unfold detect_signal_inside at h
  cases hc : check_inside_bar_pattern n1 n2 n3 with
  | none => rw [hc] at h; cases h
  | some s =>
    rw [hc] at h
    simp only [check_prerequisite_conditions, if_true] at h
    injection h with h
    subst h
    refine ⟨rfl, rfl, rfl, ?_⟩
    simpa using hc


/-- When the engulfing pattern fires, `detect_signal` returns the engulfing
signal record (the prerequisite check returns `True`). -/
theorem detect_signal_engulfing_eq (n1 n2 n3 : Candle) (s : SignalType)
    (he : check_engulfing_pattern n2 n3 = some s) :
    detect_signal n1 n2 n3 =
      some { signal_type := s, condition := .ENGULFING,
             entry_price := n3.close, timestamp := n3.timestamp + 15 } := by
  unfold detect_signal
  rw [he]
  simp [check_prerequisite_conditions]


/-- When the engulfing pattern does not fire, `detect_signal` falls through
to the inside-bar branch. -/
theorem detect_signal_no_engulfing (n1 n2 n3 : Candle)
    (he : check_engulfing_pattern n2 n3 = none) :
    detect_signal n1 n2 n3 = detect_signal_inside n1 n2 n3 := by
  unfold detect_signal
  rw [he]


/-- Entry price and timestamp of every signal `detect_signal` produces. -/
theorem detect_signal_fields (n1 n2 n3 : Candle) (sig : Signal)
    (h : detect_signal n1 n2 n3 = some sig) :
    sig.entry_price = n3.close ∧ sig.timestamp = n3.timestamp + 15 := by
  cases he : check_engulfing_pattern n2 n3 with
  | some s =>
    rw [detect_signal_engulfing_eq n1 n2 n3 s he] at h
    injection h with h
    subst h
    exact ⟨rfl, rfl⟩
  | none =>
    rw [detect_signal_no_engulfing n1 n2 n3 he] at h
    obtain ⟨-, h2, h3, -⟩ := detect_signal_inside_shape n1 n2 n3 sig h
    exact ⟨h2, h3⟩


/-- C5. Engulfing detection: for consecutive candles A (older) and B
(newer), the detector produces an ENGULFING signal of type SHORT exactly
when A closes above its open, B closes below its open and `A.open > B.close`;
LONG exactly in the mirrored case with `A.open < B.close`; the signal's
entry price is B.close.  (Purity and determinism hold by construction: the
embedding is a function of the two candles alone.) -/
theorem engulfing_detector_characterization (n1 A B : Candle) :
    ((∃ sig, detect_signal n1 A B = some sig ∧ sig.condition = .ENGULFING ∧
        sig.signal_type = .SHORT ∧ sig.entry_price = B.close) ↔
      (is_green_candle A = true ∧ is_red_candle B = true ∧
        A.«open» > B.close)) ∧
    ((∃ sig, detect_signal n1 A B = some sig ∧ sig.condition = .ENGULFING ∧
        sig.signal_type = .LONG ∧ sig.entry_price = B.close) ↔
      (is_red_candle A = true ∧ is_green_candle B = true ∧
        A.«open» < B.close)) := by
  constructor
  · constructor
    · rintro ⟨sig, hdet, hcond, htype, -⟩
      cases he : check_engulfing_pattern A B with
      | some s =>
        rw [detect_signal_engulfing_eq n1 A B s he] at hdet
        injection hdet with hdet
        subst hdet
        have hs : s = .SHORT := htype
        subst hs
        exact (check_engulfing_short_iff A B).mp he
      | none =>
        rw [detect_signal_no_engulfing n1 A B he] at hdet
        have hin := (detect_signal_inside_shape n1 A B sig hdet).1
        exact Pattern.noConfusion (hcond.symm.trans hin)
    · rintro ⟨h1, h2, h3⟩
      have he : check_engulfing_pattern A B = some .SHORT :=
        (check_engulfing_short_iff A B).mpr ⟨h1, h2, h3⟩
      exact ⟨_, detect_signal_engulfing_eq n1 A B .SHORT he, rfl, rfl, rfl⟩
  · constructor
    · rintro ⟨sig, hdet, hcond, htype, -⟩
      cases he : check_engulfing_pattern A B with
      | some s =>
        rw [detect_signal_engulfing_eq n1 A B s he] at hdet
        injection hdet with hdet
        subst hdet
        have hs : s = .LONG := htype
        subst hs
        exact (check_engulfing_long_iff A B).mp he
      | none =>
        rw [detect_signal_no_engulfing n1 A B he] at hdet
        have hin := (detect_signal_inside_shape n1 A B sig hdet).1
        exact Pattern.noConfusion (hcond.symm.trans hin)
    · rintro ⟨h1, h2, h3⟩
      have he : check_engulfing_pattern A B = some .LONG :=
        (check_engulfing_long_iff A B).mpr ⟨h1, h2, h3⟩
      exact ⟨_, detect_signal_engulfing_eq n1 A B .LONG he, rfl, rfl, rfl⟩


/-- Concrete engulfing-SHORT evaluation of the detector used by the C5 and
C6 witnesses. -/
theorem detect_signal_c6_eval :
    detect_signal c6a c6b c6c =
      some { signal_type := .SHORT, condition := .ENGULFING,
             entry_price := 99, timestamp := 45 } := by
  have he : check_engulfing_pattern c6b c6c = some .SHORT := by
    norm_num [check_engulfing_pattern, is_green_candle, is_red_candle,
      c6b, c6c]
  rw [detect_signal_engulfing_eq c6a c6b c6c .SHORT he]
  norm_num [c6c]


theorem engulfing_detector_characterization_witness :
    (is_green_candle c6b = true ∧ is_red_candle c6c = true ∧
      c6b.«open» > c6c.close) ∧
    ∃ sig, detect_signal c6a c6b c6c = some sig ∧
      sig.condition = .ENGULFING ∧ sig.signal_type = .SHORT ∧
      sig.entry_price = c6c.close := by
  have hc : is_green_candle c6b = true ∧ is_red_candle c6c = true ∧
      c6b.«open» > c6c.close := by
    norm_num [is_green_candle, is_red_candle, c6b, c6c]
  exact ⟨hc, (engulfing_detector_characterization c6a c6b c6c).1.mpr hc⟩


/-- C6 (amended). Every detected signal (engulfing or inside-bar) carries
timestamp equal to the newest window candle's timestamp shifted forward by
exactly 15 minutes, regardless of the configured signal timeframe
(`timedelta(minutes=15)` hard-coded at `src/signal_detector.py` lines 46
and 77). -/
theorem signal_timestamp_plus_15 (n1 n2 n3 : Candle) (sig : Signal)
    (h : detect_signal n1 n2 n3 = some sig) :
    sig.timestamp = n3.timestamp + 15 :=
  (detect_signal_fields n1 n2 n3 sig h).2


theorem signal_timestamp_plus_15_witness :
    detect_signal c6a c6b c6c =
      some { signal_type := .SHORT, condition := .ENGULFING,
             entry_price := 99, timestamp := 45 } ∧
    Signal.timestamp
        { signal_type := .SHORT, condition := .ENGULFING,
          entry_price := 99, timestamp := 45 } =
      c6c.timestamp + 15 :=
  ⟨detect_signal_c6_eval,
    signal_timestamp_plus_15 c6a c6b c6c _ detect_signal_c6_eval⟩


/-- C6 counterexample: on a 1-hour signal series (a supported configuration,
`_get_timeframe_minutes "1h" = 60`) the claim "signal timestamp = newest
candle timestamp + one signal-timeframe period" fails: the detector shifts
by 15 minutes, not by 60. -/
theorem signal_timestamp_not_one_period_for_1h :
    get_timeframe_minutes ("1h") = 60 ∧
    (∃ sig, detect_signal c6a c6b c6c = some sig ∧
      sig.timestamp = c6c.timestamp + 15) ∧
    ¬ ∃ sig, detect_signal c6a c6b c6c = some sig ∧
      sig.timestamp = c6c.timestamp + get_timeframe_minutes ("1h") := by
  refine ⟨by decide, ⟨_, detect_signal_c6_eval, by decide⟩, ?_⟩
  rintro ⟨sig, hsig, hts⟩
  rw [detect_signal_c6_eval] at hsig
  injection hsig with hsig
  subst hsig
  have h60 : get_timeframe_minutes ("1h") = 60 := by decide
  rw [h60] at hts
  norm_num [c6c] at hts


/-- SHORT characterization of the inside-bar continuation. -/
theorem inside_bar_tail_short_iff (n1 n2 n3 : Candle) (combined_range : ℚ) :
    inside_bar_tail n1 n2 n3 combined_range = some .SHORT ↔
      (is_green_candle n1 = true ∧ is_red_candle n2 = true ∧
        is_red_candle n3 = true ∧
        get_candle_body_range n1 < combined_range) := by
  unfold inside_bar_tail
  constructor
  · intro h
    split_ifs at h with h1 h2 h3
    · simp only [Bool.and_eq_true] at h2
      exact ⟨h2.1.1, h2.1.2, h2.2, not_le.mp h1⟩
    · exact absurd h (by simp)
  · rintro ⟨hg1, hr2, hr3, hlt⟩
    rw [if_neg (not_le.mpr hlt), if_pos (by simp [hg1, hr2, hr3])]


/-- LONG characterization of the inside-bar continuation. -/
theorem inside_bar_tail_long_iff (n1 n2 n3 : Candle) (combined_range : ℚ) :
    inside_bar_tail n1 n2 n3 combined_range = some .LONG ↔
      (is_red_candle n1 = true ∧ is_green_candle n2 = true ∧
        is_green_candle n3 = true ∧
        get_candle_body_range n1 < combined_range) := by
  unfold inside_bar_tail
  constructor
  · intro h
    split_ifs at h with h1 h2 h3
    · exact absurd h (by simp)
    · simp only [Bool.and_eq_true] at h3
      exact ⟨h3.1.1, h3.1.2, h3.2, not_le.mp h1⟩
  · rintro ⟨hr1, hg2, hg3, hlt⟩
    have h2 : ¬(is_green_candle n1 && is_red_candle n2 &&
        is_red_candle n3) = true := by
      simp only [Bool.and_eq_true, is_green_candle, is_red_candle,
        decide_eq_true_eq, not_and] at hg2 ⊢
      intro hc hr3
      linarith [hc.2]
    rw [if_neg (not_le.mpr hlt), if_neg h2, if_pos (by simp [hr1, hg2, hg3])]


/-- Characterization of the inside-bar SHORT branch
(`src/signal_detector.py` lines 179-228). -/
theorem check_inside_short_iff (n1 n2 n3 : Candle) :
    check_inside_bar_pattern n1 n2 n3 = some .SHORT ↔
      (is_green_candle n1 = true ∧ is_red_candle n2 = true ∧
        is_red_candle n3 = true ∧
        get_candle_body_range n2 < get_candle_body_range n1 ∧
        get_candle_body_range n1 < |n2.«open» - n3.close|) := by
  unfold check_inside_bar_pattern
  constructor
  · intro h
    split_ifs at h with h1 h2 h3
    · obtain ⟨hg1, hr2, hr3, hlt⟩ :=
        (inside_bar_tail_short_iff n1 n2 n3 _).mp h
      exact ⟨hg1, hr2, hr3, not_le.mp h1, hlt⟩
    · obtain ⟨hg1, hr2, hr3, hlt⟩ :=
        (inside_bar_tail_short_iff n1 n2 n3 _).mp h
      simp only [Bool.and_eq_true] at h3
      simp only [is_green_candle, is_red_candle, decide_eq_true_eq]
        at hr2 h3
      exfalso
      linarith [h3.1]
  · rintro ⟨hg1, hr2, hr3, h12, hlt⟩
    rw [if_neg (not_le.mpr h12), if_pos (by simp [hr2, hr3])]
    exact (inside_bar_tail_short_iff n1 n2 n3 _).mpr ⟨hg1, hr2, hr3, hlt⟩


/-- Characterization of the inside-bar LONG branch
(`src/signal_detector.py` lines 179-235). -/
theorem check_inside_long_iff (n1 n2 n3 : Candle) :
    check_inside_bar_pattern n1 n2 n3 = some .LONG ↔
      (is_red_candle n1 = true ∧ is_green_candle n2 = true ∧
        is_green_candle n3 = true ∧
        get_candle_body_range n2 < get_candle_body_range n1 ∧
        get_candle_body_range n1 < |n3.close - n2.«open»|) := by
  unfold check_inside_bar_pattern
  constructor
  · intro h
    split_ifs at h with h1 h2 h3
    · obtain ⟨hr1, hg2, hg3, hlt⟩ :=
        (inside_bar_tail_long_iff n1 n2 n3 _).mp h
      simp only [Bool.and_eq_true] at h2
      simp only [is_green_candle, is_red_candle, decide_eq_true_eq]
        at hg2 h2
      exfalso
      linarith [h2.1]
    · obtain ⟨hr1, hg2, hg3, hlt⟩ :=
        (inside_bar_tail_long_iff n1 n2 n3 _).mp h
      exact ⟨hr1, hg2, hg3, not_le.mp h1, hlt⟩
  · rintro ⟨hr1, hg2, hg3, h12, hlt⟩
    have h2 : ¬(is_red_candle n2 && is_red_candle n3) = true := by
      simp only [Bool.and_eq_true, is_green_candle, is_red_candle,
        decide_eq_true_eq, not_and] at hg2 ⊢
      intro hr2 hr3
      linarith
    rw [if_neg (not_le.mpr h12), if_neg h2, if_pos (by simp [hg2, hg3])]
    exact (inside_bar_tail_long_iff n1 n2 n3 _).mpr ⟨hr1, hg2, hg3, hlt⟩


/-- An optional signal that is neither a SHORT nor a LONG hit is `none`. -/
theorem option_signal_eq_none (o : Option SignalType)
    (h1 : o ≠ some .SHORT) (h2 : o ≠ some .LONG) : o = none := by
  cases o with
  | none => rfl
  | some s => cases s <;> simp_all


/-- C7. Inside-bar detection: the rejection conditions and the exact
characterization of the SHORT and LONG branches
(`src/signal_detector.py` lines 179-235), plus the entry price of the
resulting signal. -/
theorem inside_bar_characterization (n1 n2 n3 : Candle) :
    (get_candle_body_range n1 ≤ get_candle_body_range n2 →
      check_inside_bar_pattern n1 n2 n3 = none) ∧
    ((¬(is_red_candle n2 = true ∧ is_red_candle n3 = true) ∧
      ¬(is_green_candle n2 = true ∧ is_green_candle n3 = true)) →
      check_inside_bar_pattern n1 n2 n3 = none) ∧
    (is_red_candle n2 = true → is_red_candle n3 = true →
      |n2.«open» - n3.close| ≤ get_candle_body_range n1 →
      check_inside_bar_pattern n1 n2 n3 = none) ∧
    (is_green_candle n2 = true → is_green_candle n3 = true →
      |n3.close - n2.«open»| ≤ get_candle_body_range n1 →
      check_inside_bar_pattern n1 n2 n3 = none) ∧
    (check_inside_bar_pattern n1 n2 n3 = some .SHORT ↔
      (is_green_candle n1 = true ∧ is_red_candle n2 = true ∧
        is_red_candle n3 = true ∧
        get_candle_body_range n2 < get_candle_body_range n1 ∧
        get_candle_body_range n1 < |n2.«open» - n3.close|)) ∧
    (check_inside_bar_pattern n1 n2 n3 = some .LONG ↔
      (is_red_candle n1 = true ∧ is_green_candle n2 = true ∧
        is_green_candle n3 = true ∧
        get_candle_body_range n2 < get_candle_body_range n1 ∧
        get_candle_body_range n1 < |n3.close - n2.«open»|)) ∧
    (∀ sig, detect_signal n1 n2 n3 = some sig →
      sig.condition = .INSIDE_BAR →
      sig.entry_price = n3.close ∧
      check_inside_bar_pattern n1 n2 n3 = some sig.signal_type) := by
  refine ⟨?_, ?_, ?_, ?_, check_inside_short_iff n1 n2 n3,
    check_inside_long_iff n1 n2 n3, ?_⟩
  · intro h
    apply option_signal_eq_none
    · intro hc
      obtain ⟨-, -, -, hlt, -⟩ := (check_inside_short_iff n1 n2 n3).mp hc
      linarith
    · intro hc
      obtain ⟨-, -, -, hlt, -⟩ := (check_inside_long_iff n1 n2 n3).mp hc
      linarith
  · rintro ⟨ha, hb⟩
    apply option_signal_eq_none
    · intro hc
      obtain ⟨-, hr2, hr3, -, -⟩ := (check_inside_short_iff n1 n2 n3).mp hc
      exact ha ⟨hr2, hr3⟩
    · intro hc
      obtain ⟨-, hg2, hg3, -, -⟩ := (check_inside_long_iff n1 n2 n3).mp hc
      exact hb ⟨hg2, hg3⟩
  · intro h2 h3 hcomb
    apply option_signal_eq_none
    · intro hc
      obtain ⟨-, -, -, -, hlt⟩ := (check_inside_short_iff n1 n2 n3).mp hc
      linarith
    · intro hc
      obtain ⟨-, hg2, -, -, -⟩ := (check_inside_long_iff n1 n2 n3).mp hc
      simp only [is_green_candle, is_red_candle, decide_eq_true_eq] at hg2 h2
      linarith
  · intro h2 h3 hcomb
    apply option_signal_eq_none
    · intro hc
      obtain ⟨-, hr2, -, -, -⟩ := (check_inside_short_iff n1 n2 n3).mp hc
      simp only [is_green_candle, is_red_candle, decide_eq_true_eq] at hr2 h2
      linarith
    · intro hc
      obtain ⟨-, -, -, -, hlt⟩ := (check_inside_long_iff n1 n2 n3).mp hc
      linarith
  · intro sig hdet hcond
    cases he : check_engulfing_pattern n2 n3 with
    | some s =>
      rw [detect_signal_engulfing_eq n1 n2 n3 s he] at hdet
      injection hdet with hdet
      subst hdet
      exact Pattern.noConfusion hcond
    | none =>
      rw [detect_signal_no_engulfing n1 n2 n3 he] at hdet
      obtain ⟨-, h2, -, h4⟩ := detect_signal_inside_shape n1 n2 n3 sig hdet
      exact ⟨h2, h4⟩


theorem inside_bar_characterization_witness :
    (is_green_candle d7a = true ∧ is_red_candle d7b = true ∧
      is_red_candle d7c = true ∧
      get_candle_body_range d7b < get_candle_body_range d7a ∧
      get_candle_body_range d7a < |d7b.«open» - d7c.close|) ∧
    check_inside_bar_pattern d7a d7b d7c = some .SHORT := by
  have hc : is_green_candle d7a = true ∧ is_red_candle d7b = true ∧
      is_red_candle d7c = true ∧
      get_candle_body_range d7b < get_candle_body_range d7a ∧
      get_candle_body_range d7a < |d7b.«open» - d7c.close| := by
    norm_num [is_green_candle, is_red_candle, get_candle_body_range,
      d7a, d7b, d7c]
  exact ⟨hc, ((inside_bar_characterization d7a d7b d7c).2.2.2.2.1).mpr hc⟩


theorem timeout_resolution_spec_witness :
    0 < cfgW8.TIMEOUT_HOURS ∧
    (cfgW8.TIMEOUT_HOURS : ℚ) ≤
      ((curW8.timestamp - orderW8.entry_time : Int) : ℚ) / 60 ∧
    ∃ t, check_order_1m cfgW8 15 curW8 [] orderW8 = some t ∧
      t.hit_type = .TIMEOUT ∧
      t.exit_price = curW8.close ∧
      t.exit_time = curW8.timestamp ∧
      (t.result = .WIN ↔
        (match orderW8.signal_type with
         | .LONG => orderW8.tp_price ≤ curW8.close
         | .SHORT => curW8.close ≤ orderW8.tp_price)) :=
  ⟨by decide, by norm_num [cfgW8, curW8, orderW8],
    timeout_resolution_spec cfgW8 15 curW8 [] orderW8 (by decide)
      (by norm_num [cfgW8, curW8, orderW8])⟩

/-- `detect_signal_inside` returns nothing when the inside-bar pattern does
not fire. -/
theorem detect_signal_inside_none (n1 n2 n3 : Candle)
    (hc : check_inside_bar_pattern n1 n2 n3 = none) :
    detect_signal_inside n1 n2 n3 = none := by
  unfold detect_signal_inside
  rw [hc]

/-- `detect_signal` returns nothing when neither pattern fires. -/
theorem detect_signal_none (n1 n2 n3 : Candle)
    (he : check_engulfing_pattern n2 n3 = none)
    (hc : check_inside_bar_pattern n1 n2 n3 = none) :
    detect_signal n1 n2 n3 = none := by
  rw [detect_signal_no_engulfing n1 n2 n3 he,
    detect_signal_inside_none n1 n2 n3 hc]

/-- The engulfing SHORT signal detected on the window `(e2a, e2b, e2c)`. -/
theorem detect_signal_e2_eval :
    detect_signal e2a e2b e2c =
      some { signal_type := .SHORT, condition := .ENGULFING,
             entry_price := 99, timestamp := 45 } := by
  have he : check_engulfing_pattern e2b e2c = some .SHORT := by
    norm_num [check_engulfing_pattern, is_green_candle, is_red_candle,
      e2b, e2c]
  rw [detect_signal_engulfing_eq e2a e2b e2c .SHORT he]
  norm_num [e2c]

/-- No signal on the window `(e2b, e2c, e2d)`. -/
theorem detect_signal_e2_none :
    detect_signal e2b e2c e2d = none :=
  detect_signal_none e2b e2c e2d
    (by norm_num [check_engulfing_pattern, is_green_candle, is_red_candle,
      e2c, e2d])
    (by norm_num [check_inside_bar_pattern, get_candle_body_range, e2b, e2c])

/-- First loop iteration on `dfC2`: the engulfing SHORT is admitted and no
order resolves yet. -/
theorem backtest_step_e2_place :
    backtest_step cfgDefault 15 [m2] e2a e2b e2c e2d
        { active := [], completed := [] } =
      { active := [ordC2], completed := [] } := by
  unfold backtest_step
  rw [detect_signal_e2_eval]
  norm_num [admit_signal, cfgDefault, place_order, calculate_tp_sl_prices,
    e2d, check_active_orders_with_1m_precision, check_order_1m, scan_1m,
    check_tp_sl_hit, m2, ordC2]

/-- Second loop iteration on `dfC2`: no new signal, `m2` resolves `ordC2`
to `tradeC2` by TP. -/
theorem backtest_step_e2_resolve :
    backtest_step cfgDefault 15 [m2] e2b e2c e2d e2e
        { active := [ordC2], completed := [] } =
      { active := [], completed := [tradeC2] } := by
  have hord : check_order_1m cfgDefault 15 e2e [m2] ordC2 = some tradeC2 := by
    norm_num [check_order_1m, scan_1m, check_tp_sl_hit, calculate_pnl,
      calculate_pnl_percentage, cfgDefault, e2e, m2, ordC2, tradeC2]
  unfold backtest_step
  rw [detect_signal_e2_none]
  simp only [admit_signal]
  simp [check_active_orders_with_1m_precision, hord]

/-- The fault-injected loop on `dfC2` raises at the third iteration with one
completed trade on the books. -/
theorem backtest_loop_exc_c2_eval :
    backtest_loop_exc cfgDefault 15 [m2] faultC2 dfC2 =
      .error { active := [], completed := [tradeC2] } := by
  unfold backtest_loop_exc dfC2
  simp [run_windows_exc, faultC2, backtest_step_e2_place,
    backtest_step_e2_resolve]

/-- C2 (amended). If an exception is raised during the backtest main loop,
`run_backtest` catches it and returns the empty list — the trades completed
before the exception are not part of the return value (they remain only on
the engine's internal state). -/
theorem run_backtest_exception_returns_empty (cfg : Config)
    (timeframe : String) (fault : Nat → Bool) (df df_1m : List Candle)
    (st : BState)
    (h : backtest_loop_exc cfg (get_timeframe_minutes timeframe) df_1m fault
      df = .error st) :
    run_backtest_exc cfg timeframe fault df df_1m = [] := by
  by_cases hdf : df = []
  · subst hdf
    simp [run_backtest_exc]
  · by_cases h1m : df_1m = []
    · simp [run_backtest_exc, hdf, h1m]
    · simp [run_backtest_exc, hdf, h1m, h]

theorem run_backtest_exception_returns_empty_witness :
    backtest_loop_exc cfgDefault (get_timeframe_minutes ("15m")) [m2] faultC2
        dfC2 = .error { active := [], completed := [tradeC2] } ∧
      run_backtest_exc cfgDefault ("15m") faultC2 dfC2 [m2] = [] := by
  have htf : get_timeframe_minutes ("15m") = 15 := by decide
  have hloop : backtest_loop_exc cfgDefault (get_timeframe_minutes ("15m"))
      [m2] faultC2 dfC2 = .error { active := [], completed := [tradeC2] } := by
    rw [htf]
    exact backtest_loop_exc_c2_eval
  exact ⟨hloop,
    run_backtest_exception_returns_empty cfgDefault ("15m") faultC2 dfC2 [m2]
      { active := [], completed := [tradeC2] } hloop⟩

/-- C2 counterexample: the claim "run_backtest returns the list of trades
that had already completed before the exception" is false — on `dfC2` one
trade (`tradeC2`) has completed before the iteration-2 exception, yet
`run_backtest` returns the empty list (the `return []` handler at
`src/backtester.py` lines 135-137). -/
theorem run_backtest_exception_drops_partial_results :
    (completed_before_fault cfgDefault 15 [m2] faultC2 dfC2).length = 1 ∧
      run_backtest_exc cfgDefault ("15m") faultC2 dfC2 [m2] = [] := by
  constructor
  · rw [completed_before_fault, backtest_loop_exc_c2_eval]
    rfl
  · have htf : get_timeframe_minutes ("15m") = 15 := by decide
    have hne : dfC2 ≠ [] := by simp [dfC2]
    simp [run_backtest_exc, htf, hne, backtest_loop_exc_c2_eval]

/-- C10. `calculate_win_rate` is total: on the empty list it returns the
all-zero statistics record without dividing by zero, and on every non-empty
list the win rate is wins divided by total trades times 100, with
wins + losses = total trades. -/
theorem calculate_win_rate_total_spec :
    calculate_win_rate [] =
      { total_trades := 0, wins := 0, losses := 0, win_rate := 0,
        total_pnl := 0, total_pnl_percentage := 0, avg_win := 0,
        avg_loss := 0 } ∧
    ∀ results : List CompletedTrade, results ≠ [] →
      (calculate_win_rate results).win_rate =
        (((results.filter fun r => r.result = .WIN).length : ℚ) /
          (results.length : ℚ)) * 100 ∧
      (calculate_win_rate results).wins +
          (calculate_win_rate results).losses =
        results.length := by
  constructor
  · rfl
  · intro results h
    have hpos : 0 < results.length := List.length_pos.mpr h
    have hle : (results.filter fun r => r.result = .WIN).length ≤
        results.length := List.length_filter_le _ results
    constructor
    · simp only [calculate_win_rate, if_neg h]
      rw [if_pos hpos]
    · simp only [calculate_win_rate, if_neg h]
      omega

theorem calculate_win_rate_total_spec_witness :
    ([tradeW10] : List CompletedTrade) ≠ [] ∧
      ((calculate_win_rate [tradeW10]).win_rate =
        ((([tradeW10].filter fun r => r.result = .WIN).length : ℚ) /
          (([tradeW10] : List CompletedTrade).length : ℚ)) * 100 ∧
      (calculate_win_rate [tradeW10]).wins +
          (calculate_win_rate [tradeW10]).losses =
        ([tradeW10] : List CompletedTrade).length) :=
  ⟨by simp, calculate_win_rate_total_spec.2 [tradeW10] (by simp)⟩

/-- Any trade `check_order_1m` produces keeps the order's entry time and has
exit time strictly after it (timeout ages are at least one hour; TP/SL exits
happen on a 1-minute bar strictly after entry). -/
theorem check_order_1m_entry_exit (cfg : Config) (timeframe_minutes : Int)
    (current_candle : Candle) (df_1m : List Candle) (order : Order)
    (t : CompletedTrade)
    (h : check_order_1m cfg timeframe_minutes current_candle df_1m order =
      some t) :
    t.entry_time = order.entry_time ∧ t.entry_time < t.exit_time := by
  simp only [check_order_1m] at h
  split at h
  · rename_i ht
    injection h with h
    subst h
    refine ⟨rfl, ?_⟩
    obtain ⟨hH, hage⟩ := ht
    have h1 : (1 : ℚ) ≤ (cfg.TIMEOUT_HOURS : ℚ) := by exact_mod_cast hH
    have h2 : (1 : ℚ) ≤
        ((current_candle.timestamp - order.entry_time : Int) : ℚ) / 60 :=
      le_trans h1 hage
    have h3 : (60 : ℚ) ≤
        ((current_candle.timestamp - order.entry_time : Int) : ℚ) := by
      rw [le_div_iff₀ (by norm_num : (0 : ℚ) < 60)] at h2
      linarith
    have h4 : (60 : Int) ≤ current_candle.timestamp - order.entry_time := by
      exact_mod_cast h3
    show order.entry_time < current_candle.timestamp
    omega
  · split at h
    · exact Option.noConfusion h
    · rename_i hskip
      split at h
      · rename_i candle_1m hit_type exit_price hscan
        injection h with h
        subst h
        exact ⟨rfl, scan_1m_entry_lt order _ candle_1m hit_type exit_price
          hscan⟩
      · exact Option.noConfusion h

/-- Orders active after admission were either already active or were placed
at the current time. -/
theorem admit_signal_active_mem (cfg : Config) (st : BState)
    (sig : Option Signal) (time : Int) :
    ∀ o ∈ (admit_signal cfg st sig time).active,
      o ∈ st.active ∨ o.entry_time = time := by
  intro o ho
  unfold admit_signal at ho
  cases sig with
  | none => exact Or.inl ho
  | some s =>
    split_ifs at ho
    · exact Or.inl ho
    · rcases List.mem_append.mp ho with h | h
      · exact Or.inl h
      · simp only [List.mem_singleton] at h
        subst h
        exact Or.inr rfl
    · exact Or.inl ho
    · rcases List.mem_append.mp ho with h | h
      · exact Or.inl h
      · simp only [List.mem_singleton] at h
        subst h
        exact Or.inr rfl

/-- Admission never touches the completed list. -/
theorem admit_signal_completed (cfg : Config) (st : BState)
    (sig : Option Signal) (time : Int) :
    (admit_signal cfg st sig time).completed = st.completed := by
  unfold admit_signal
  cases sig with
  | none => rfl
  | some s => split_ifs <;> rfl

/-- The order check only removes orders from the active list. -/
theorem check_active_active_sub (cfg : Config) (timeframe_minutes : Int)
    (current_candle : Candle) (df_1m : List Candle) (st : BState) :
    ∀ o ∈ (check_active_orders_with_1m_precision cfg timeframe_minutes
        current_candle df_1m st).active, o ∈ st.active := by
  intro o ho
  exact List.mem_of_mem_filter ho

/-- Every trade completed by the order check either was already completed or
resolves one of the active orders. -/
theorem check_active_completed_mem (cfg : Config) (timeframe_minutes : Int)
    (current_candle : Candle) (df_1m : List Candle) (st : BState) :
    ∀ t ∈ (check_active_orders_with_1m_precision cfg timeframe_minutes
        current_candle df_1m st).completed,
      t ∈ st.completed ∨ ∃ o ∈ st.active,
        check_order_1m cfg timeframe_minutes current_candle df_1m o =
          some t := by
  intro t ht
  simp only [check_active_orders_with_1m_precision] at ht
  rcases List.mem_append.mp ht with h | h
  · exact Or.inl h
  · obtain ⟨o, ho, heq⟩ := List.mem_filterMap.mp h
    exact Or.inr ⟨o, ho, heq⟩

/-- One loop iteration preserves the active-entry bound at the current bar
and extends the completed list only with good trades. -/
theorem backtest_step_inv (cfg : Config) (timeframe_minutes : Int)
    (df_1m : List Candle) (n1 n2 n3 current : Candle) (st : BState)
    (hact : ∀ o ∈ st.active, o.entry_time ≤ current.timestamp)
    (hcom : ∀ t ∈ st.completed, GoodTrade t) :
    (∀ o ∈ (backtest_step cfg timeframe_minutes df_1m n1 n2 n3 current
        st).active, o.entry_time ≤ current.timestamp) ∧
    (∀ t ∈ (backtest_step cfg timeframe_minutes df_1m n1 n2 n3 current
        st).completed, GoodTrade t) := by
  unfold backtest_step
  constructor
  · intro o ho
    have ho1 := check_active_active_sub cfg timeframe_minutes current df_1m _
      o ho
    rcases admit_signal_active_mem cfg st (detect_signal n1 n2 n3)
        current.timestamp o ho1 with h | h
    · exact hact o h
    · exact le_of_eq h
  · intro t ht
    rcases check_active_completed_mem cfg timeframe_minutes current df_1m _
        t ht with h | ⟨o, ho, hres⟩
    · rw [admit_signal_completed] at h
      exact hcom t h
    · obtain ⟨-, hlt⟩ := check_order_1m_entry_exit cfg timeframe_minutes
        current df_1m o t hres
      exact ⟨le_of_lt hlt, fun _ => hlt⟩

/-- Main-loop invariant: when the bars still to process are chronologically
ordered starting no earlier than the previous bar, every active order's
entry stays bounded by the last processed bar and every completed trade is
good. -/
theorem run_windows_inv (cfg : Config) (timeframe_minutes : Int)
    (df_1m : List Candle) :
    ∀ (lst : List Candle) (a b c : Candle) (st : BState),
      List.Chain' (fun x y => x.timestamp ≤ y.timestamp) (c :: lst) →
      (∀ o ∈ st.active, o.entry_time ≤ c.timestamp) →
      (∀ t ∈ st.completed, GoodTrade t) →
      (∀ o ∈ (run_windows cfg timeframe_minutes df_1m a b c lst st).active,
        o.entry_time ≤ (lst.getLastD c).timestamp) ∧
      (∀ t ∈ (run_windows cfg timeframe_minutes df_1m a b c lst
        st).completed, GoodTrade t) := by
  intro lst
  induction lst with
  | nil =>
    intro a b c st hch hact hcom
    exact ⟨hact, hcom⟩
  | cons d rest ih =>
    intro a b c st hch hact hcom
    obtain ⟨hcd, hch2⟩ := List.chain'_cons.mp hch
    have hact2 : ∀ o ∈ st.active, o.entry_time ≤ d.timestamp :=
      fun o ho => le_trans (hact o ho) hcd
    obtain ⟨h1, h2⟩ := backtest_step_inv cfg timeframe_minutes df_1m a b c d
      st hact2 hcom
    have hrec := ih b c d
      (backtest_step cfg timeframe_minutes df_1m a b c d st) hch2 h1 h2
    simp only [run_windows]
    rw [List.getLastD_cons]
    exact hrec

/-- The end-of-backtest force close produces good trades as long as every
remaining order was entered no later than the last bar. -/
theorem close_remaining_completed_good (cfg : Config) (last_candle : Candle)
    (st : BState)
    (hact : ∀ o ∈ st.active, o.entry_time ≤ last_candle.timestamp)
    (hcom : ∀ t ∈ st.completed, GoodTrade t) :
    ∀ t ∈ (close_remaining_orders cfg last_candle st).completed,
      GoodTrade t := by
  intro t ht
  simp only [close_remaining_orders] at ht
  rcases List.mem_append.mp ht with h | h
  · exact hcom t h
  · obtain ⟨o, ho, heq⟩ := List.mem_map.mp h
    subst heq
    refine ⟨hact o ho, ?_⟩
    rintro (h | h) <;> exact HitType.noConfusion h

/-- C3 (amended). On a chronologically sorted signal series, every completed
trade of a backtest run has `exit_time ≥ entry_time`, strictly greater when
the trade was closed by TP or SL (equality can occur only for the
end-of-backtest force close of an order entered at the final signal bar). -/
theorem completed_trade_exit_time_ge_entry_time (cfg : Config)
    (timeframe : String) (df df_1m : List Candle)
    (hs : List.Chain' (fun x y => x.timestamp ≤ y.timestamp) df) :
    ∀ t ∈ run_backtest cfg timeframe df df_1m, GoodTrade t := by
  intro t ht
  match df, hs with
  | [], _ => simp [run_backtest] at ht
  | [c0], _ => simp [run_backtest, run_windows, close_remaining_orders] at ht
  | [c0, c1], _ =>
    simp [run_backtest, run_windows, close_remaining_orders] at ht
  | [c0, c1, c2], _ =>
    simp [run_backtest, run_windows, close_remaining_orders] at ht
  | c0 :: c1 :: c2 :: d :: rest, hs =>
    by_cases h1m : df_1m = []
    · simp [run_backtest, h1m] at ht
    · have hch : List.Chain' (fun x y => x.timestamp ≤ y.timestamp)
          (c2 :: d :: rest) := (hs.tail).tail
      obtain ⟨hactEnd, hcomEnd⟩ := run_windows_inv cfg
        (get_timeframe_minutes timeframe) df_1m (d :: rest) c0 c1 c2
        { active := [], completed := [] } hch (by simp) (by simp)
      have hlast : (c0 :: c1 :: c2 :: d :: rest).getLastD dummyCandle =
          (d :: rest).getLastD c2 := by
        rw [List.getLastD_cons, List.getLastD_cons, List.getLastD_cons]
      by_cases hT : cfg.ENABLE_TIMEOUT = true
      · simp only [run_backtest, hT, h1m, if_neg (by simp :
          ¬(c0 :: c1 :: c2 :: d :: rest : List Candle) = []),
          if_neg h1m, if_true, hlast] at ht
        exact close_remaining_completed_good cfg _ _ hactEnd hcomEnd t ht
      · simp only [run_backtest, h1m, if_neg (by simp :
          ¬(c0 :: c1 :: c2 :: d :: rest : List Candle) = []),
          if_neg h1m, if_neg hT] at ht
        exact hcomEnd t ht

/-- The four-bar run of `dfC3`: the engulfing SHORT fires at the final bar
and the force close resolves it at that same bar. -/
theorem run_backtest_c3_eval :
    run_backtest cfgDefault ("15m") dfC3 [m2] = [tradeC3] := by
  have htf : get_timeframe_minutes ("15m") = 15 := by decide
  have hclose : close_remaining_orders cfgDefault e2d
      { active := [ordC2], completed := [] } =
      { active := [], completed := [tradeC3] } := by
    norm_num [close_remaining_orders, calculate_pnl,
      calculate_pnl_percentage, cfgDefault, e2d, ordC2, tradeC3]
  have hen : cfgDefault.ENABLE_TIMEOUT = true := rfl
  rw [show dfC3 = [e2a, e2b, e2c, e2d] from rfl]
  simp [run_backtest, htf, run_windows, backtest_step_e2_place, hclose, hen,
    List.getLastD_cons]

theorem completed_trade_exit_time_ge_entry_time_witness :
    List.Chain' (fun x y => x.timestamp ≤ y.timestamp) dfC3 ∧
      tradeC3 ∈ run_backtest cfgDefault ("15m") dfC3 [m2] ∧
      GoodTrade tradeC3 := by
  have hch : List.Chain' (fun x y => x.timestamp ≤ y.timestamp) dfC3 := by
    norm_num [dfC3, e2a, e2b, e2c, e2d, List.chain'_cons]
  have hmem : tradeC3 ∈ run_backtest cfgDefault ("15m") dfC3 [m2] := by
    rw [run_backtest_c3_eval]
    simp
  exact ⟨hch, hmem, completed_trade_exit_time_ge_entry_time cfgDefault
    ("15m") dfC3 [m2] hch tradeC3 hmem⟩

/-- C3 counterexample: the trade force-closed at the end of the `dfC3` run
was entered at the final bar, so its exit time is not strictly greater than
its entry time. -/
theorem exit_time_not_strictly_greater_at_last_bar :
    ∃ t ∈ run_backtest cfgDefault ("15m") dfC3 [m2],
      ¬ t.entry_time < t.exit_time := by
  refine ⟨tradeC3, ?_, by decide⟩
  rw [run_backtest_c3_eval]
  simp

/-- In single-order mode, admission preserves "at most one active order":
a signal is dropped whenever an order is active, and placement only happens
from the empty active list. -/
theorem admit_signal_active_le_one (cfg : Config) (st : BState)
    (sig : Option Signal) (time : Int)
    (hmode : cfg.ENABLE_SINGLE_ORDER_MODE = true)
    (hlen : st.active.length ≤ 1) :
    (admit_signal cfg st sig time).active.length ≤ 1 := by
  unfold admit_signal
  cases sig with
  | none => exact hlen
  | some s =>
    split_ifs with h1 h2 h3
    · exact hlen
    · have h0 : st.active.length = 0 := by
        by_contra hne
        exact h1 ⟨hmode, Nat.pos_of_ne_zero hne⟩
      simp [h0]
    · exact hlen
    · have h0 : st.active.length = 0 := by
        by_contra hne
        exact h1 ⟨hmode, Nat.pos_of_ne_zero hne⟩
      simp [h0]

/-- The order check never grows the active list. -/
theorem check_active_active_length (cfg : Config) (timeframe_minutes : Int)
    (current_candle : Candle) (df_1m : List Candle) (st : BState) :
    (check_active_orders_with_1m_precision cfg timeframe_minutes
        current_candle df_1m st).active.length ≤ st.active.length :=
  List.length_filter_le _ _

/-- In single-order mode, every state along the main loop keeps at most one
active order. -/
theorem run_windows_trace_active_le_one (cfg : Config)
    (timeframe_minutes : Int) (df_1m : List Candle)
    (hmode : cfg.ENABLE_SINGLE_ORDER_MODE = true) :
    ∀ (lst : List Candle) (a b c : Candle) (st : BState),
      st.active.length ≤ 1 →
      ∀ s ∈ run_windows_trace cfg timeframe_minutes df_1m a b c lst st,
        s.active.length ≤ 1 := by
  intro lst
  induction lst with
  | nil =>
    intro a b c st hlen s hs
    simp [run_windows_trace] at hs
  | cons d rest ih =>
    intro a b c st hlen s hs
    simp only [run_windows_trace] at hs
    have h1 : (admit_signal cfg st (detect_signal a b c)
        d.timestamp).active.length ≤ 1 :=
      admit_signal_active_le_one cfg st _ _ hmode hlen
    have h2 : (check_active_orders_with_1m_precision cfg timeframe_minutes d
        df_1m (admit_signal cfg st (detect_signal a b c)
          d.timestamp)).active.length ≤ 1 :=
      le_trans (check_active_active_length cfg timeframe_minutes d df_1m _) h1
    rcases List.mem_cons.mp hs with rfl | hs2
    · exact h1
    · rcases List.mem_cons.mp hs2 with rfl | hs3
      · exact h2
      · exact ih b c d _ h2 s hs3

/-- C9. Single-order-mode admission invariant: with single-order mode
enabled, at every point of the backtest run the number of active orders
never exceeds one (a detected signal is dropped whenever any order is
active). -/
theorem single_order_mode_at_most_one_active (cfg : Config)
    (timeframe : String) (df df_1m : List Candle)
    (hmode : cfg.ENABLE_SINGLE_ORDER_MODE = true) :
    (∀ (st : BState) (sig : Signal) (time : Int), st.active ≠ [] →
      admit_signal cfg st (some sig) time = st) ∧
    ∀ st ∈ backtest_states cfg timeframe df df_1m,
      st.active.length ≤ 1 := by
  constructor
  · intro st sig time hne
    have hcond : cfg.ENABLE_SINGLE_ORDER_MODE = true ∧
        st.active.length > 0 := ⟨hmode, List.length_pos.mpr hne⟩
    simp [admit_signal, hcond]
  intro st hst
  by_cases hdf : df = []
  · simp [backtest_states, hdf] at hst
  · by_cases h1m : df_1m = []
    · simp [backtest_states, hdf, h1m] at hst
    · match df, hdf with
      | [c0], _ =>
        simp only [backtest_states, if_neg (show ¬([c0] : List Candle) = []
          by simp), if_neg h1m, List.mem_singleton] at hst
        subst hst
        simp
      | [c0, c1], _ =>
        simp only [backtest_states,
          if_neg (show ¬([c0, c1] : List Candle) = [] by simp),
          if_neg h1m, List.mem_singleton] at hst
        subst hst
        simp
      | c0 :: c1 :: c2 :: rest, _ =>
        simp only [backtest_states,
          if_neg (show ¬(c0 :: c1 :: c2 :: rest : List Candle) = [] by simp),
          if_neg h1m] at hst
        have hstates : ∀ s ∈ ({ active := [], completed := [] } : BState) ::
            run_windows_trace cfg (get_timeframe_minutes timeframe) df_1m c0
              c1 c2 rest { active := [], completed := [] },
            s.active.length ≤ 1 := by
          intro s hs
          rcases List.mem_cons.mp hs with rfl | hs2
          · simp
          · exact run_windows_trace_active_le_one cfg
              (get_timeframe_minutes timeframe) df_1m hmode rest c0 c1 c2
              { active := [], completed := [] } (by simp) s hs2
        by_cases hT : cfg.ENABLE_TIMEOUT = true
        · rw [if_pos hT] at hst
          rcases List.mem_append.mp hst with h | h
          · exact hstates st h
          · simp only [List.mem_singleton] at h
            subst h
            simp [close_remaining_orders]
        · rw [if_neg hT] at hst
          exact hstates st hst

theorem single_order_mode_at_most_one_active_witness :
    cfgSingle.ENABLE_SINGLE_ORDER_MODE = true ∧
      ((∀ (st : BState) (sig : Signal) (time : Int), st.active ≠ [] →
        admit_signal cfgSingle st (some sig) time = st) ∧
      ∀ st ∈ backtest_states cfgSingle ("15m") dfC3 [m2],
        st.active.length ≤ 1) :=
  ⟨rfl, single_order_mode_at_most_one_active cfgSingle ("15m") dfC3 [m2] rfl⟩

end XauSignal
